import Mathlib

/-!
# Verification of the AutoInfra-agent file indexing and classification pipeline

A shallow embedding of the file-utility helpers (`src/utils/file-utils.ts`),
the error-handling shapes (`src/utils/error-handler.ts`), the in-memory AST
cache (`src/utils/cache-manager.ts`), the codebase indexer
(`FileIndexer.indexCodebase`) and the priority classifier
(`FilePriorityClassifier.classifyFile`).  The indexer and classifier
implementations live in the documents concatenated after the AST-parser
test suite inside `src/src/__tests__/ast-parser.test.ts` (separated by
document-separator markers, the same convention as the documents
concatenated into `src/utils/file-utils.ts`); they are embedded from that
source.

JavaScript strings are modelled as Lean `String`s; the JS helpers
`includes`, `endsWith`, `startsWith` and `split('/')` are modelled on the
underlying character lists.  Regular-expression patterns appearing in the
source are translated to a small evaluator over literal/whitespace/word
tokens, each translation stated next to its source pattern.  JS numbers
holding byte sizes and scores are modelled as `Int`.
-/

namespace AutoInfra

/-! ## JS string primitives -/

/-- JS `s.includes(pat)`: `pat` occurs as a contiguous substring of `s`. -/
def strContains (s pat : String) : Bool := decide (pat.data <:+: s.data)

/-- JS `s.endsWith(pat)`. -/
def strEndsWith (s pat : String) : Bool := decide (pat.data <:+ s.data)

/-- JS `s.startsWith(pat)`. -/
def strStartsWith (s pat : String) : Bool := decide (pat.data <+: s.data)

/-- JS `s.split('/')` on the character list: splits at every `'/'`,
keeping empty segments (so the result is always non-empty). -/
def splitSlash : List Char → List (List Char)
  | [] => [[]]
  | '/' :: rest => [] :: splitSlash rest
  | c :: rest =>
    match splitSlash rest with
    | [] => [[c]]
    | s :: ss => (c :: s) :: ss

/-- JS `path.split('/').pop() || ''`: the part of the path after the last
slash (empty when the path ends in a slash or is empty). -/
def fileNameOf (path : String) : String := String.mk ((splitSlash path.data).getLastD [])

/-! ## Types from `src/types/common.ts` and `src/types/codebase.ts` -/

/-- `FileType` from `src/types/common.ts` (eight members). -/
inductive FileType where
  | package | config | source | test | documentation | asset | build | schema
deriving DecidableEq

/-- `ImportanceCategory` from `src/types/common.ts`. -/
inductive ImportanceCategory where
  | critical | important | normal | ignore
deriving DecidableEq

/-- `ImportanceScore` from `src/types/common.ts`. -/
structure ImportanceScore where
  score : Int
  reasons : List String
  category : ImportanceCategory
deriving DecidableEq

/-! ## `DefaultFileUtils` from `src/utils/file-utils.ts` -/

/-- `DefaultFileUtils.packageFilePatterns`. -/
def packageFilePatterns : List String :=
  ["package.json", "requirements.txt", "pom.xml", "build.gradle",
   "Cargo.toml", "go.mod", "composer.json", "Gemfile"]

/-- `DefaultFileUtils.configFilePatterns` as one predicate on the file name.
Each regex in the source is a literal pattern: `/\.config\.(js|ts|json)$/`,
`/tsconfig\.json$/`, `/\.yml$/`, `/\.yaml$/` are suffix tests and the rest
are unanchored substring tests. -/
def configFileMatch (fileName : String) : Bool :=
  strEndsWith fileName ".config.js" || strEndsWith fileName ".config.ts" ||
  strEndsWith fileName ".config.json" ||
  strContains fileName "webpack.config." ||
  strContains fileName "vite.config." ||
  strContains fileName "rollup.config." ||
  strContains fileName "babel.config." ||
  strContains fileName "jest.config." ||
  strContains fileName "vitest.config." ||
  strEndsWith fileName "tsconfig.json" ||
  strContains fileName ".eslintrc." ||
  strContains fileName ".prettierrc" ||
  strContains fileName "docker-compose." ||
  strContains fileName "Dockerfile" ||
  strContains fileName ".env" ||
  strEndsWith fileName ".yml" ||
  strEndsWith fileName ".yaml"

/-- `DefaultFileUtils.entryPointPatterns`. -/
def entryPointPatterns : List String :=
  ["index.js", "index.ts", "main.js", "main.ts", "app.js", "app.ts",
   "server.js", "server.ts", "main.py", "app.py", "__main__.py",
   "Main.java", "Program.cs", "main.go"]

/-- `fileName.endsWith` one of the given suffixes (used for the anchored
extension alternation regexes in `getFileType`). -/
def endsWithAny (s : String) (pats : List String) : Bool := pats.any (strEndsWith s)

/-- Extensions of `/\.(png|jpg|jpeg|gif|svg|ico|woff|woff2|ttf|eot)$/`. -/
def assetExtensions : List String :=
  [".png", ".jpg", ".jpeg", ".gif", ".svg", ".ico", ".woff", ".woff2", ".ttf", ".eot"]

/-- Extensions of `/\.(js|ts|py|java|go|rs|cs|php|rb|cpp|c|h)$/`. -/
def sourceExtensions : List String :=
  [".js", ".ts", ".py", ".java", ".go", ".rs", ".cs", ".php", ".rb", ".cpp", ".c", ".h"]

/-- Extensions of `/\.(json|xml|yml|yaml|toml|ini)$/`. -/
def dataExtensions : List String :=
  [".json", ".xml", ".yml", ".yaml", ".toml", ".ini"]

/-- `DefaultFileUtils.getFileType(path, content?)`.  The `content` argument
is accepted but (as in the source) never used. -/
def getFileType (path : String) (content : Option String) : FileType :=
  if packageFilePatterns.contains (fileNameOf path) then .package
  else if configFileMatch (fileNameOf path) then .config
  else if entryPointPatterns.contains (fileNameOf path) then .source
  else if strContains (fileNameOf path) ".test." || strContains (fileNameOf path) ".spec." ||
          strContains path "/test/" || strContains path "/__tests__/" then .test
  else if strEndsWith (fileNameOf path) ".md" || strEndsWith (fileNameOf path) ".txt" ||
          strEndsWith (fileNameOf path) ".rst" then .documentation
  else if endsWithAny (fileNameOf path) assetExtensions then .asset
  else if endsWithAny (fileNameOf path) sourceExtensions then .source
  else if endsWithAny (fileNameOf path) dataExtensions then .config
  else .source

/-- The fileName test of the "Docker and CI/CD files" bonus in
`calculateImportanceScore`. -/
def dockerCiMatch (fileName : String) : Bool :=
  strContains fileName "Dockerfile" || strContains fileName "docker-compose" ||
  strContains fileName ".github" || strContains fileName ".gitlab-ci"

/-- The fileName test of the "Schema files" bonus in
`calculateImportanceScore`. -/
def schemaNameMatch (fileName : String) : Bool :=
  strContains fileName "schema" || strContains fileName "openapi" ||
  strContains fileName "swagger"

/-- The additive score accumulated by `calculateImportanceScore` before the
test-file reduction: package +100, entry point +80, configuration +60,
docker/CI +70, schema +50, source-typed file +30.  (The source interleaves
these `score +=` steps with `reasons.push`; score and reasons are split into
two parallel definitions here.) -/
def importanceRawScore (path : String) : Int :=
  (if packageFilePatterns.contains (fileNameOf path) then (100 : Int) else 0) +
  (if entryPointPatterns.contains (fileNameOf path) then (80 : Int) else 0) +
  (if configFileMatch (fileNameOf path) then (60 : Int) else 0) +
  (if dockerCiMatch (fileNameOf path) then (70 : Int) else 0) +
  (if schemaNameMatch (fileNameOf path) then (50 : Int) else 0) +
  (if getFileType path none = .source then (30 : Int) else 0)

/-- The final score of `calculateImportanceScore`: test files are reduced to
`max (score - 20) 10`.  (`this.getFileType(path)` is called without
content.) -/
def importanceFinalScore (path : String) : Int :=
  if getFileType path none = .test then max (importanceRawScore path - 20) 10
  else importanceRawScore path

/-- The `reasons` strings pushed by `calculateImportanceScore`, in source
order. -/
def importanceReasons (path : String) : List String :=
  (if packageFilePatterns.contains (fileNameOf path) then ["Package/dependency file"] else []) ++
  (if entryPointPatterns.contains (fileNameOf path) then ["Application entry point"] else []) ++
  (if configFileMatch (fileNameOf path) then ["Configuration file"] else []) ++
  (if dockerCiMatch (fileNameOf path) then ["Infrastructure configuration"] else []) ++
  (if schemaNameMatch (fileNameOf path) then ["API schema definition"] else []) ++
  (if getFileType path none = .source then ["Source code file"] else []) ++
  (if getFileType path none = .test then ["Test file (lower priority)"] else [])

/-- The category bands at the end of `calculateImportanceScore`:
`>= 80` critical, `>= 50` important, `>= 20` normal, else ignore. -/
def importanceCategoryOf (score : Int) : ImportanceCategory :=
  if 80 ≤ score then .critical
  else if 50 ≤ score then .important
  else if 20 ≤ score then .normal
  else .ignore

/-- `DefaultFileUtils.calculateImportanceScore(path, content?)`.  The
`content` argument is accepted but (as in the source) never used. -/
def calculateImportanceScore (path : String) (content : Option String) : ImportanceScore :=
  { score := importanceFinalScore path,
    reasons := importanceReasons path,
    category := importanceCategoryOf (importanceFinalScore path) }

/-- The `ignorePaths` list of `DefaultFileUtils.shouldIgnoreFile`. -/
def ignorePaths : List String :=
  ["node_modules/", ".git/", "dist/", "build/", "target/", ".next/",
   ".nuxt/", "coverage/", ".nyc_output/", "__pycache__/", "*.pyc",
   ".DS_Store", "Thumbs.db"]

/-- `DefaultFileUtils.shouldIgnoreFile(path)`: a `pattern` ending in `/` or
plain is a substring test, a pattern starting with `*` is a suffix test on
the rest. -/
def shouldIgnoreFile (path : String) : Bool :=
  ignorePaths.any fun pattern =>
    if strEndsWith pattern "/" then strContains path pattern
    else if strStartsWith pattern "*" then strEndsWith path (pattern.drop 1)
    else strContains path pattern

/-- The extension → language table of
`DefaultFileUtils.getLanguageFromPath`. -/
def languageMap : List (String × String) :=
  [("js", "javascript"), ("ts", "typescript"), ("py", "python"),
   ("java", "java"), ("go", "go"), ("rs", "rust"), ("cs", "csharp"),
   ("php", "php"), ("rb", "ruby"), ("cpp", "cpp"), ("c", "c"), ("h", "c"),
   ("hpp", "cpp"), ("kt", "kotlin"), ("scala", "scala"), ("clj", "clojure"),
   ("hs", "haskell"), ("elm", "elm"), ("dart", "dart"), ("swift", "swift")]

/-- JS `path.split('.')` at the character level (mirrors `splitSlash`). -/
def splitDot : List Char → List (List Char)
  | [] => [[]]
  | '.' :: rest => [] :: splitDot rest
  | c :: rest =>
    match splitDot rest with
    | [] => [[c]]
    | s :: ss => (c :: s) :: ss

/-- JS `Char.toLowerCase` for the extension lookup. -/
def lowerChar (c : Char) : Char := c.toLower

/-- `DefaultFileUtils.getLanguageFromPath(path)`: last dot-separated
segment, lower-cased, looked up in `languageMap`. -/
def getLanguageFromPath (path : String) : Option String :=
  let extension := String.mk (((splitDot path.data).getLastD []).map lowerChar)
  (languageMap.lookup extension)

/-- JS `replace(/\\/g, '/')` at the character level. -/
def replaceBackslash (c : Char) : Char := if c = '\\' then '/' else c

/-- JS `replace(/\/+/g, '/')` at the character level: every maximal run of
slashes becomes a single slash. -/
def collapseSlashes : List Char → List Char
  | [] => []
  | [c] => [c]
  | a :: b :: rest =>
    if a = '/' ∧ b = '/' then collapseSlashes (b :: rest)
    else a :: collapseSlashes (b :: rest)

/-- `DefaultFileUtils.normalizePath(path)`:
`path.replace(/\\/g, '/').replace(/\/+/g, '/')`. -/
def normalizePath (path : String) : String :=
  String.mk (collapseSlashes (path.data.map replaceBackslash))

/-! ## Error shapes from `src/utils/error-handler.ts` -/

/-- `ErrorCategory` from `src/types/common.ts`. -/
inductive ErrorCategory where
  | analysis | generation | validation | integration | recommendation
deriving DecidableEq

/-- The observable fields of `InfrastructureError`
(`src/utils/error-handler.ts`); `partialResults`/`fallbackOptions` are
`undefined`/`[]` on the indexer's fail-fast path and are omitted. -/
structure InfrastructureError where
  code : String
  message : String
  category : ErrorCategory
  recoverable : Bool
  suggestions : List String
deriving DecidableEq

/-! ## The AST cache of `InMemoryCacheManager` (`src/utils/cache-manager.ts`) -/

/-- `AST` from `src/types/codebase.ts`; the untyped `body: any[]` nodes are
modelled opaquely, the cache never inspects them. -/
structure AST where
  type : String
  body : List String
  sourceType : String
deriving DecidableEq

/-- The AST-cache part of `InMemoryCacheManager`'s state: the
`astCache` map (file path ↦ stored AST and `lastModified.getTime()`
in milliseconds) and the request/hit counters.  The `timestamp: new Date()`
field stored alongside is never read on the AST path and is omitted. -/
structure CacheState where
  astCache : String → Option (AST × Int)
  totalRequests : Nat
  totalHits : Nat

/-- A fresh `InMemoryCacheManager`. -/
def emptyCacheState : CacheState :=
  { astCache := fun _ => none, totalRequests := 0, totalHits := 0 }

/-- `InMemoryCacheManager.getCachedAST(filePath, lastModified)`: counts the
request, and hits only when the stored `lastModified.getTime()` equals the
requested one. -/
def getCachedAST (st : CacheState) (filePath : String) (lastModified : Int) :
    Option AST × CacheState :=
  match st.astCache filePath with
  | some (ast, lm) =>
    if lm = lastModified then
      (some ast,
        { st with totalRequests := st.totalRequests + 1, totalHits := st.totalHits + 1 })
    else (none, { st with totalRequests := st.totalRequests + 1 })
  | none => (none, { st with totalRequests := st.totalRequests + 1 })

/-- `InMemoryCacheManager.setCachedAST(filePath, ast, lastModified)`:
overwrites the entry for `filePath`. -/
def setCachedAST (st : CacheState) (filePath : String) (ast : AST) (lastModified : Int) :
    CacheState :=
  { st with
    astCache := fun p => if p = filePath then some (ast, lastModified) else st.astCache p }

/-! ## A small regex evaluator

`FileIndexer` and `FilePriorityClassifier` use JavaScript regular
expressions built from literals, alternations of literals, `\s+`, `\s*`,
`\w+`, `.`, `.*` and `[^.]`.  They are evaluated here over character
lists: `\s` is modelled by ASCII whitespace and `\w` by `[A-Za-z0-9_]`
(the ASCII sets these patterns are used with), `.*` is greedy and stops at
newlines, and alternatives are tried left to right as in the source
patterns.  In every source pattern the token following `\s+`/`\s*`/`\w+`
cannot start with a whitespace/word character, so maximal munch is
faithful there. -/

/-- ASCII whitespace, modelling the regex class `\s`. -/
def isSpaceChar (c : Char) : Bool :=
  c = ' ' || c = '\t' || c = '\n' || c = '\r' || c = '\x0b' || c = '\x0c'

/-- Word characters `[A-Za-z0-9_]`, modelling the regex class `\w`. -/
def isWordChar (c : Char) : Bool := c.isAlphanum || c = '_'

/-- One token of the regular expressions used by the program. -/
inductive RegexTok where
  | lit : String → RegexTok
  | alts : List String → RegexTok
  | wsPlus : RegexTok
  | wsStar : RegexTok
  | wordPlus : RegexTok
  | anyOne : RegexTok
  | anyStar : RegexTok
  | notDot : RegexTok
deriving DecidableEq

/-- Match a token sequence at the start of the input, returning the
remaining input.  `anyStar` (`.*`) backtracks greedily; alternations try
their literals in source order. -/
def matchToks : List RegexTok → List Char → Option (List Char)
  | [], s => some s
  | .lit a :: rest, s =>
    if a.data.isPrefixOf s then matchToks rest (s.drop a.data.length) else none
  | .alts as :: rest, s =>
    as.findSome? fun a =>
      if a.data.isPrefixOf s then matchToks rest (s.drop a.data.length) else none
  | .wsPlus :: rest, s =>
    match s with
    | c :: cs => if isSpaceChar c then matchToks rest (cs.dropWhile isSpaceChar) else none
    | [] => none
  | .wsStar :: rest, s => matchToks rest (s.dropWhile isSpaceChar)
  | .wordPlus :: rest, s =>
    match s with
    | c :: cs => if isWordChar c then matchToks rest (cs.dropWhile isWordChar) else none
    | [] => none
  | .anyOne :: rest, s =>
    match s with
    | c :: cs => if c = '\n' then none else matchToks rest cs
    | [] => none
  | .anyStar :: rest, s =>
    ((List.range ((s.takeWhile fun c => ¬c = '\n').length + 1)).reverse).findSome? fun k =>
      matchToks rest (s.drop k)
  | .notDot :: rest, s =>
    match s with
    | c :: cs => if c = '.' then none else matchToks rest cs
    | [] => none

/-- JS `regex.test(s)`: some suffix position starts a match. -/
def regexTest (toks : List RegexTok) (s : String) : Bool :=
  s.data.tails.any fun t => (matchToks toks t).isSome

/-- JS `s.match(regex-with-g-flag).length`: scan left to right, counting
non-overlapping matches and continuing after each match.  The fuel is the
number of scan steps left; since every pattern the program counts
consumes at least one character, fuel equal to the input length (as
`countMatches` passes) covers the whole scan. -/
def scanCountAux (toks : List RegexTok) : Nat → List Char → Nat
  | 0, _ => 0
  | _ + 1, [] => 0
  | fuel + 1, c :: rest =>
    match matchToks toks (c :: rest) with
    | some remaining =>
      if remaining.length < rest.length + 1 then 1 + scanCountAux toks fuel remaining
      else 1 + scanCountAux toks fuel rest
    | none => scanCountAux toks fuel rest

/-- `countMatches toks s` counts the global matches of the pattern in
`s`. -/
def countMatches (toks : List RegexTok) (s : String) : Nat :=
  scanCountAux toks s.data.length s.data

/-! ## The codebase indexer (`FileIndexer`)

Embedded from the `FileIndexer` implementation in the snapshot (the
document concatenated after the AST-parser test suite in
`src/src/__tests__/ast-parser.test.ts`, lines 2556–3054).  The wall-clock
fields (`processingTimeMs`, `lastModified: new Date()`) have no observable
content in the model and are omitted; the `priorityFiles`, `astCache`,
`dependencyGraph` and aggregate-statistics parts of the returned
`CodebaseIndex` are derived views not consulted by any claim and are
omitted from the modelled index. -/

/-- `FileEntry` from `src/types/codebase.ts`.  `codebase.ts` declares
`type: FileType` required, but `FileIndexer` consumes its files through
`{path, content, size, type?: FileType}` signatures and falls back to
automatic detection when the declared type is absent; the optional form
the indexer processes is kept so that fallback stays live. -/
structure FileEntry where
  path : String
  content : String
  size : Int
  type : Option FileType
deriving DecidableEq

/-- `CodebaseMetadata` from `src/types/codebase.ts` (its optional
repository/infrastructure fields are never read by the indexer). -/
structure CodebaseMetadata where
  name : String
  description : Option String := none
deriving DecidableEq

/-- `CodebaseInput` from `src/types/codebase.ts`. -/
structure CodebaseInput where
  files : List FileEntry
  metadata : CodebaseMetadata
deriving DecidableEq

/-- `FileIndexEntry` from `src/types/codebase.ts`.  `lastModified` is
stamped with `new Date()` by `createFileIndexEntry` and is omitted. -/
structure FileIndexEntry where
  path : String
  type : FileType
  size : Int
  importance : ImportanceScore
  language : Option String
deriving DecidableEq

/-- `FileIndexerOptions` with the constructor defaults of `FileIndexer`
(`maxFiles` 10,000, `maxFileSize` 10 MiB).  The `Record<string, FileType>`
of `customFileTypeRules` is modelled as an association list;
`includeContent` and `calculateHashes` are carried but never read, as in
the source. -/
structure FileIndexerOptions where
  maxFiles : Nat := 10000
  maxFileSize : Int := 10485760
  customIgnorePatterns : List String := []
  includeContent : Bool := false
  calculateHashes : Bool := false
  customFileTypeRules : List (String × FileType) := []

/-- `FileIndexer.filterFiles`: drop entries with an empty path or negative
size and normalize the paths of the survivors (the source mutates
`file.path` inside the filter). -/
def filterFiles (files : List FileEntry) : List FileEntry :=
  (files.filter fun f => !(f.path == "") && decide (0 ≤ f.size)).map
    fun f => { f with path := normalizePath f.path }

/-- The converted glob of `FileIndexer.shouldIgnoreFile`:
`new RegExp(pattern.replace(/\*/g, '.*'))` — each `*` becomes `.*`, each
`.` is the any-character class, all other characters are literal. -/
def globToks (pattern : String) : List RegexTok :=
  pattern.data.map fun c =>
    if c = '*' then .anyStar else if c = '.' then .anyOne else .lit (String.mk [c])

/-- `FileIndexer.shouldIgnoreFile`: the `DefaultFileUtils` ignore rules,
then the custom patterns — a pattern containing `*` is tested as the
unanchored converted regex, otherwise as a substring. -/
def indexerIgnoreMatch (opts : FileIndexerOptions) (path : String) : Bool :=
  shouldIgnoreFile path ||
  opts.customIgnorePatterns.any fun pattern =>
    if strContains pattern "*" then regexTest (globToks pattern) path
    else strContains path pattern

/-- `FileIndexer.createFileIndexEntry`: normalize the path, resolve the
type (custom rule by exact normalized path, else the declared type, else
automatic detection), score with the file-utility scorer, detect the
language. -/
def createFileIndexEntry (opts : FileIndexerOptions) (f : FileEntry) : FileIndexEntry :=
  { path := normalizePath f.path,
    type :=
      (match opts.customFileTypeRules.lookup (normalizePath f.path) with
       | some t => t
       | none =>
         match f.type with
         | some t => t
         | none => getFileType (normalizePath f.path) (some f.content)),
    size := f.size,
    importance := calculateImportanceScore (normalizePath f.path) (some f.content),
    language := getLanguageFromPath (normalizePath f.path) }

/-- The accumulating state of `indexCodebase`'s processing loop: the
`fileIndex` being built (in filtered-input order), `totalSize`,
`filesIgnored`, the diagnostics lists, and whether the `maxFiles` break
was taken.  (No step of the pure model can throw, so the per-file `catch`
never appends to `errors`.) -/
structure IndexState where
  entries : List FileIndexEntry := []
  totalSize : Int := 0
  ignored : Nat := 0
  errors : List String := []
  warnings : List String := []
  stopped : Bool := false

/-- One iteration of `indexCodebase`'s `for` loop over the filtered
files: skip ignored files (counting them), skip oversized files (warning,
counted), otherwise append the index entry and accumulate the size,
breaking once the index has reached `maxFiles` entries. -/
def indexStep (opts : FileIndexerOptions) (st : IndexState) (f : FileEntry) : IndexState :=
  if st.stopped then st
  else if indexerIgnoreMatch opts f.path then { st with ignored := st.ignored + 1 }
  else if opts.maxFileSize < f.size then
    { st with
      warnings := st.warnings ++
        ["File " ++ f.path ++ " exceeds maximum size limit (" ++ toString f.size ++ " bytes)"],
      ignored := st.ignored + 1 }
  else
    let newEntries := st.entries ++ [createFileIndexEntry opts f]
    if opts.maxFiles ≤ newEntries.length then
      { st with
        entries := newEntries,
        totalSize := st.totalSize + f.size,
        stopped := true,
        warnings := st.warnings ++
          ["Reached maximum file limit (" ++ toString opts.maxFiles ++ "), stopping indexing"] }
    else { st with entries := newEntries, totalSize := st.totalSize + f.size }

/-- The processing loop of `indexCodebase`: filter, then fold the loop
body over the filtered files in order. -/
def indexFiles (opts : FileIndexerOptions) (files : List FileEntry) : IndexState :=
  (filterFiles files).foldl (indexStep opts) {}

/-- The sort order of `fileIndex.sort((a, b) => b.importance.score -
a.importance.score)`: descending by importance score (JS `sort` is
stable). -/
def scoreOrder (a b : FileIndexEntry) : Prop :=
  b.importance.score ≤ a.importance.score

instance : DecidableRel scoreOrder := fun _ _ => Int.decLe _ _

instance : IsTotal FileIndexEntry scoreOrder :=
  ⟨fun a b => le_total b.importance.score a.importance.score⟩

instance : IsTrans FileIndexEntry scoreOrder :=
  ⟨fun _ _ _ hab hbc => le_trans hbc hab⟩

/-- The error escaping `indexCodebase` on an empty file list: the inner
`createAnalysisError(FILE_INDEXING_FAILED, 'No files provided for
indexing')` throw is caught by the method's catch-all and rethrown as
`FILE_INDEXING_FAILED` with the message prefixed `File indexing failed: `
and these suggestions.  The attached `partialResults` progress record and
`fallbackOptions` are not observed by any claim and are omitted. -/
def fileIndexingFailedError : InfrastructureError :=
  { code := "FILE_INDEXING_FAILED",
    message := "File indexing failed: No files provided for indexing",
    category := .analysis,
    recoverable := false,
    suggestions := ["Check file permissions", "Verify file structure", "Reduce file count or size"] }

/-- The modelled `CodebaseIndex` output: the `fileIndex` the verified
claims observe. -/
structure CodebaseIndexModel where
  fileIndex : List FileIndexEntry
deriving DecidableEq

/-- The run diagnostics of `IndexingResult.statistics`
(`processingTimeMs` is wall clock and omitted). -/
structure IndexRunStatistics where
  totalFilesScanned : Nat
  filesIndexed : Nat
  filesIgnored : Nat
  totalSizeBytes : Int
  errors : List String
  warnings : List String
deriving DecidableEq

/-- `IndexingResult`: the index plus run diagnostics. -/
structure IndexResult where
  index : CodebaseIndexModel
  statistics : IndexRunStatistics
deriving DecidableEq

/-- `FileIndexer.indexCodebase` (options passed to the constructor are a
second argument here): throw the wrapped `FILE_INDEXING_FAILED` error on
an empty file list; otherwise filter, warn when nothing survives
filtering, run the processing loop, and sort the built index by
importance score descending (stably). -/
def indexCodebase (input : CodebaseInput) (opts : FileIndexerOptions) :
    Except InfrastructureError IndexResult :=
  if input.files.isEmpty then .error fileIndexingFailedError
  else
    .ok { index :=
            { fileIndex := List.insertionSort scoreOrder (indexFiles opts input.files).entries },
          statistics :=
            { totalFilesScanned := input.files.length,
              filesIndexed :=
                (List.insertionSort scoreOrder (indexFiles opts input.files).entries).length,
              filesIgnored := (indexFiles opts input.files).ignored,
              totalSizeBytes := (indexFiles opts input.files).totalSize,
              errors := (indexFiles opts input.files).errors,
              warnings :=
                (if (filterFiles input.files).isEmpty then
                  ["No files remaining after filtering"] else []) ++
                (indexFiles opts input.files).warnings } }

/-! ## The priority classifier (`FilePriorityClassifier`)

Embedded from the `FilePriorityClassifier` implementation in the snapshot
(the document concatenated after the AST-parser test suite in
`src/src/__tests__/ast-parser.test.ts`, lines 1752–2555).  Helper-method
parameters the source never reads (the `path` of `isEntryPoint`, the
`content` of `determineArchitecturalRole`, the `path`/`fileName` of
`calculateBaseScore`, the unused `pathLower`) are dropped. -/

/-- The thirteen architectural roles of the `ArchitecturalRole` union. -/
inductive ArchitecturalRole where
  | coreBusinessLogic | dataAccess | apiInterface | configuration
  | infrastructure | testing | documentation | buildSystem | deployment
  | monitoring | security | utility | unknown
deriving DecidableEq

/-- `FileCharacteristics`: eleven boolean flags and one architectural
role. -/
structure FileCharacteristics where
  isEntryPoint : Bool
  isConfiguration : Bool
  isPackageDefinition : Bool
  isSchema : Bool
  isInfrastructure : Bool
  isTest : Bool
  isDocumentation : Bool
  isGenerated : Bool
  hasComplexLogic : Bool
  hasExternalDependencies : Bool
  isPublicInterface : Bool
  architecturalRole : ArchitecturalRole
deriving DecidableEq

/-- Recommendation type of `ClassificationRecommendation`. -/
inductive RecommendationType where
  | analysis | generation | monitoring | security
deriving DecidableEq

/-- Recommendation priority of `ClassificationRecommendation`. -/
inductive RecommendationPriority where
  | high | medium | low
deriving DecidableEq

/-- `ClassificationRecommendation`. -/
structure ClassificationRecommendation where
  type : RecommendationType
  priority : RecommendationPriority
  description : String
  action : String
deriving DecidableEq

/-- `FileClassification`: importance, characteristics and recommendations
for one file. -/
structure FileClassification where
  importance : ImportanceScore
  characteristics : FileCharacteristics
  recommendations : List ClassificationRecommendation
deriving DecidableEq

/-- A `PriorityScoringRule.pattern` is a string (substring test) or a
regular expression (modelled by the token evaluator above). -/
inductive RulePattern where
  | str : String → RulePattern
  | regex : List RegexTok → RulePattern
deriving DecidableEq

/-- `PriorityScoringRule` (its optional `category` field is never read by
the classifier and is omitted). -/
structure PriorityScoringRule where
  pattern : RulePattern
  scoreAdjustment : Int
  reason : String
deriving DecidableEq

/-- `PriorityClassifierOptions` with the constructor defaults of
`FilePriorityClassifier` (`projectType` web-app, `primaryLanguage`
javascript, empty framework, content analysis on). -/
structure PriorityClassifierOptions where
  customScoringRules : List PriorityScoringRule := []
  projectType : String := "web-app"
  primaryLanguage : String := "javascript"
  framework : String := ""
  enableContentAnalysis : Bool := true

/-- The entry-point names of `FilePriorityClassifier.isEntryPoint`. -/
def classifierEntryPoints : List String :=
  ["index.js", "index.ts", "main.js", "main.ts", "app.js", "app.ts",
   "server.js", "server.ts", "main.py", "app.py", "__main__.py",
   "Main.java", "Program.cs", "main.go", "lib.rs", "main.rs"]

/-- `FilePriorityClassifier.isEntryPoint`. -/
def classifierIsEntryPoint (fileName : String) : Bool :=
  classifierEntryPoints.contains fileName || strEndsWith fileName "Application.java"

/-- `FilePriorityClassifier.isConfiguration`: a declared `config` type
wins; otherwise the classifier's own pattern list (no Docker patterns,
with `.toml`/`.ini`). -/
def classifierIsConfiguration (fileName : String) (declared : Option FileType) : Bool :=
  declared == some .config ||
  strEndsWith fileName ".config.js" || strEndsWith fileName ".config.ts" ||
  strEndsWith fileName ".config.json" ||
  strContains fileName "webpack.config." || strContains fileName "vite.config." ||
  strContains fileName "rollup.config." || strContains fileName "babel.config." ||
  strContains fileName "jest.config." || strContains fileName "vitest.config." ||
  strEndsWith fileName "tsconfig.json" ||
  strContains fileName ".eslintrc." || strContains fileName ".prettierrc" ||
  strContains fileName ".env" ||
  strEndsWith fileName ".yml" || strEndsWith fileName ".yaml" ||
  strEndsWith fileName ".toml" || strEndsWith fileName ".ini"

/-- The twelve package-manifest names of
`FilePriorityClassifier.isPackageDefinition`. -/
def classifierPackageFiles : List String :=
  ["package.json", "requirements.txt", "pom.xml", "build.gradle",
   "Cargo.toml", "go.mod", "composer.json", "Gemfile",
   "setup.py", "pyproject.toml", "Package.swift", "pubspec.yaml"]

/-- `FilePriorityClassifier.isPackageDefinition`. -/
def classifierIsPackageDefinition (fileName : String) : Bool :=
  classifierPackageFiles.contains fileName

/-- `FilePriorityClassifier.isSchema`. -/
def classifierIsSchema (fileName path : String) : Bool :=
  strContains fileName "schema" || strContains fileName "openapi" ||
  strContains fileName "swagger" || strContains path "/schema/" ||
  strEndsWith fileName ".graphql" || strEndsWith fileName ".proto" ||
  strEndsWith fileName ".avsc"

/-- `FilePriorityClassifier.isInfrastructure`. -/
def classifierIsInfrastructure (fileName path : String) : Bool :=
  strContains fileName "Dockerfile" || strContains fileName "docker-compose" ||
  fileName == ".dockerignore" || strContains path "docker/" ||
  strContains path ".github/" || strContains fileName ".gitlab-ci" ||
  strContains fileName "jenkins" || strContains fileName "terraform" ||
  strContains fileName "ansible"

/-- `FilePriorityClassifier.isTest`. -/
def classifierIsTest (fileName path : String) : Bool :=
  strContains fileName ".test." || strContains fileName ".spec." ||
  strContains path "/test/" || strContains path "/__tests__/" ||
  strContains path "/tests/" ||
  strEndsWith fileName "Test.java" || strEndsWith fileName "_test.go"

/-- `FilePriorityClassifier.isDocumentation`: a declared `documentation`
type wins; otherwise documentation extensions or a `/docs/` path. -/
def classifierIsDocumentation (fileName path : String) (declared : Option FileType) : Bool :=
  declared == some .documentation ||
  strEndsWith fileName ".md" || strEndsWith fileName ".txt" ||
  strEndsWith fileName ".rst" || strEndsWith fileName ".adoc" ||
  strContains path "/docs/"

/-- The content markers of `FilePriorityClassifier.isGenerated`. -/
def classifierGeneratedMarkers : List String :=
  ["This file was automatically generated", "DO NOT EDIT", "Auto-generated",
   "@generated", "Code generated by"]

/-- `FilePriorityClassifier.isGenerated`: generated-name/path patterns
first, then (only when content is present) the content markers. -/
def classifierIsGenerated (fileName path : String) (content : Option String) : Bool :=
  if strContains fileName ".generated." || strContains fileName ".gen." ||
     strContains path "/generated/" || strContains path "/.next/" ||
     strContains path "/dist/" || strContains path "/build/" then true
  else
    match content with
    | some c => classifierGeneratedMarkers.any fun m => strContains c m
    | none => false

/-- The eight complexity-indicator patterns of
`FilePriorityClassifier.hasComplexLogic`: `class\s+\w+`,
`function\s+\w+`, `def\s+\w+`, `if\s*\(`, `for\s*\(`, `while\s*\(`,
`switch\s*\(`, `try\s*{`. -/
def complexityIndicatorToks : List (List RegexTok) :=
  [[.lit "class", .wsPlus, .wordPlus],
   [.lit "function", .wsPlus, .wordPlus],
   [.lit "def", .wsPlus, .wordPlus],
   [.lit "if", .wsStar, .lit "("],
   [.lit "for", .wsStar, .lit "("],
   [.lit "while", .wsStar, .lit "("],
   [.lit "switch", .wsStar, .lit "("],
   [.lit "try", .wsStar, .lit "\x7b"]]

/-- `FilePriorityClassifier.hasComplexLogic`: more than ten total matches
of the eight indicator patterns. -/
def classifierHasComplexLogic (content : Option String) : Bool :=
  match content with
  | none => false
  | some c => 10 < (complexityIndicatorToks.map fun toks => countMatches toks c).sum

/-- The four dependency patterns of
`FilePriorityClassifier.hasExternalDependencies`:
`import\s+.*from\s+['"][^.]`, `require\s*\(\s*['"][^.]`,
`from\s+\w+\s+import`, `#include\s*<\w+>`. -/
def dependencyPatternToks : List (List RegexTok) :=
  [[.lit "import", .wsPlus, .anyStar, .lit "from", .wsPlus, .alts ["'", "\""], .notDot],
   [.lit "require", .wsStar, .lit "(", .wsStar, .alts ["'", "\""], .notDot],
   [.lit "from", .wsPlus, .wordPlus, .wsPlus, .lit "import"],
   [.lit "#include", .wsStar, .lit "<", .wordPlus, .lit ">"]]

/-- `FilePriorityClassifier.hasExternalDependencies`. -/
def classifierHasExternalDependencies (content : Option String) : Bool :=
  match content with
  | none => false
  | some c => dependencyPatternToks.any fun toks => regexTest toks c

/-- The four export patterns of
`FilePriorityClassifier.isPublicInterface`:
`export\s+(class|function|interface|type)`, `module\.exports`,
`public\s+(class|interface)`, `__all__\s*=`. -/
def exportPatternToks : List (List RegexTok) :=
  [[.lit "export", .wsPlus, .alts ["class", "function", "interface", "type"]],
   [.lit "module.exports"],
   [.lit "public", .wsPlus, .alts ["class", "interface"]],
   [.lit "__all__", .wsStar, .lit "="]]

/-- `FilePriorityClassifier.isPublicInterface`: api/interface/public name
or path markers first, then (only when content is present) the export
patterns. -/
def classifierIsPublicInterface (fileName path : String) (content : Option String) : Bool :=
  if strContains fileName "api" || strContains fileName "interface" ||
     strContains fileName "public" || strContains path "/api/" ||
     strContains path "/public/" then true
  else
    match content with
    | some c => exportPatternToks.any fun toks => regexTest toks c
    | none => false

/-- `FilePriorityClassifier.determineArchitecturalRole`: the ordered
priority chain of the source — infrastructure, deployment, build-system,
configuration, testing, documentation, api-interface, data-access,
security, monitoring, utility, then core-business-logic only for files
with a declared `source` type that are not tests, else unknown. -/
def determineArchitecturalRole (fileName path : String)
    (declared : Option FileType) : ArchitecturalRole :=
  if classifierIsInfrastructure fileName path then .infrastructure
  else if strContains fileName "deploy" || strContains path "/deploy/" then .deployment
  else if strContains fileName "build" || strContains fileName "webpack" ||
          strContains fileName "rollup" then .buildSystem
  else if classifierIsConfiguration fileName declared then .configuration
  else if classifierIsTest fileName path then .testing
  else if classifierIsDocumentation fileName path declared then .documentation
  else if strContains fileName "api" || strContains path "/api/" ||
          classifierIsSchema fileName path then .apiInterface
  else if strContains fileName "model" || strContains fileName "repository" ||
          strContains fileName "dao" || strContains path "/models/" ||
          strContains path "/data/" then .dataAccess
  else if strContains fileName "auth" || strContains fileName "security" ||
          strContains fileName "crypto" then .security
  else if strContains fileName "log" || strContains fileName "monitor" ||
          strContains fileName "metric" then .monitoring
  else if strContains fileName "util" || strContains fileName "helper" ||
          strContains path "/utils/" then .utility
  else if declared == some .source && !classifierIsTest fileName path then .coreBusinessLogic
  else .unknown

/-- `FilePriorityClassifier.analyzeFileCharacteristics`. -/
def analyzeFileCharacteristics (path : String) (content : Option String)
    (declared : Option FileType) : FileCharacteristics :=
  { isEntryPoint := classifierIsEntryPoint (fileNameOf path),
    isConfiguration := classifierIsConfiguration (fileNameOf path) declared,
    isPackageDefinition := classifierIsPackageDefinition (fileNameOf path),
    isSchema := classifierIsSchema (fileNameOf path) path,
    isInfrastructure := classifierIsInfrastructure (fileNameOf path) path,
    isTest := classifierIsTest (fileNameOf path) path,
    isDocumentation := classifierIsDocumentation (fileNameOf path) path declared,
    isGenerated := classifierIsGenerated (fileNameOf path) path content,
    hasComplexLogic := classifierHasComplexLogic content,
    hasExternalDependencies := classifierHasExternalDependencies content,
    isPublicInterface := classifierIsPublicInterface (fileNameOf path) path content,
    architecturalRole := determineArchitecturalRole (fileNameOf path) path declared }

/-- The architectural-role bonuses of
`FilePriorityClassifier.calculateBaseScore` (its `switch`; `unknown`
falls to the +30 default). -/
def roleBonus : ArchitecturalRole → Int
  | .coreBusinessLogic => 80
  | .apiInterface => 75
  | .dataAccess => 65
  | .security => 70
  | .configuration => 60
  | .infrastructure => 55
  | .buildSystem => 50
  | .deployment => 45
  | .monitoring => 40
  | .utility => 35
  | .testing => 25
  | .documentation => 20
  | .unknown => 30

/-- The source-extension list of
`FilePriorityClassifier.calculateBaseScore` (nine extensions, without the
dot). -/
def classifierSourceExtensions : List String :=
  ["js", "ts", "py", "java", "go", "rs", "cs", "php", "rb"]

/-- `fileName.split('.').pop()?.toLowerCase() || ''` — the extension used
by the classifier. -/
def fileExtensionOf (fileName : String) : String :=
  String.mk (((splitDot fileName.data).getLastD []).map lowerChar)

/-- `FilePriorityClassifier.calculateBaseScore`: package +100, entry
point +90, configuration +50, schema +55, infrastructure +50, public
interface +45, the role bonus, +30 for a recognized source extension,
minus test −15, generated −20 and documentation-without-schema −10. -/
def calculateBaseScore (extension : String) (ch : FileCharacteristics) : Int :=
  (if ch.isPackageDefinition then (100 : Int) else 0) +
  (if ch.isEntryPoint then (90 : Int) else 0) +
  (if ch.isConfiguration then (50 : Int) else 0) +
  (if ch.isSchema then (55 : Int) else 0) +
  (if ch.isInfrastructure then (50 : Int) else 0) +
  (if ch.isPublicInterface then (45 : Int) else 0) +
  roleBonus ch.architecturalRole +
  (if classifierSourceExtensions.contains extension then (30 : Int) else 0) -
  (if ch.isTest then (15 : Int) else 0) -
  (if ch.isGenerated then (20 : Int) else 0) -
  (if ch.isDocumentation && !ch.isSchema then (10 : Int) else 0)

/-- `FilePriorityClassifier.getProjectTypeAdjustment` (the full `switch`:
api-service, library, cli-tool, microservice, monorepo; web-app and the
remaining archetypes add nothing). -/
def getProjectTypeAdjustment (opts : PriorityClassifierOptions)
    (ch : FileCharacteristics) : Int :=
  if opts.projectType == "api-service" then
    (if ch.architecturalRole = .apiInterface then (20 : Int) else 0) +
    (if ch.isSchema then (15 : Int) else 0)
  else if opts.projectType == "library" then
    (if ch.isPublicInterface then (25 : Int) else 0) +
    (if ch.isDocumentation then (10 : Int) else 0)
  else if opts.projectType == "cli-tool" then
    (if ch.isEntryPoint then (15 : Int) else 0) +
    (if ch.isConfiguration then (10 : Int) else 0)
  else if opts.projectType == "microservice" then
    (if ch.isInfrastructure then (15 : Int) else 0) +
    (if ch.architecturalRole = .monitoring then (10 : Int) else 0)
  else if opts.projectType == "monorepo" then
    (if ch.isPackageDefinition then (10 : Int) else 0) +
    (if ch.architecturalRole = .buildSystem then (15 : Int) else 0)
  else 0

/-- `toLowerCase` on a whole string (for the framework comparison). -/
def lowerStr (s : String) : String := String.mk (s.data.map lowerChar)

/-- `FilePriorityClassifier.getLanguageFrameworkAdjustment`: the
language `switch` (typescript, python, java, go) plus, when a framework
is configured, the framework `switch` (react, express, spring, django). -/
def getLanguageFrameworkAdjustment (opts : PriorityClassifierOptions)
    (fileName : String) : Int :=
  (if opts.primaryLanguage == "typescript" then
    (if strEndsWith fileName ".d.ts" then (15 : Int) else 0) +
    (if fileName == "tsconfig.json" then (10 : Int) else 0)
   else if opts.primaryLanguage == "python" then
    (if fileName == "__init__.py" then (15 : Int) else 0) +
    (if fileName == "setup.py" || fileName == "pyproject.toml" then (10 : Int) else 0)
   else if opts.primaryLanguage == "java" then
    (if strEndsWith fileName "Application.java" then (15 : Int) else 0) +
    (if fileName == "pom.xml" || fileName == "build.gradle" then (10 : Int) else 0)
   else if opts.primaryLanguage == "go" then
    (if fileName == "main.go" then (15 : Int) else 0) +
    (if fileName == "go.mod" then (10 : Int) else 0)
   else 0) +
  (if opts.framework == "" then 0
   else if lowerStr opts.framework == "react" then
    (if strContains fileName "App." || strContains fileName "index." then (10 : Int) else 0)
   else if lowerStr opts.framework == "express" then
    (if strContains fileName "server." || strContains fileName "app." then (10 : Int) else 0)
   else if lowerStr opts.framework == "spring" then
    (if strContains fileName "Application.java" then (15 : Int) else 0) +
    (if strContains fileName "application.properties" ||
        strContains fileName "application.yml" then (10 : Int) else 0)
   else if lowerStr opts.framework == "django" then
    (if fileName == "settings.py" || fileName == "urls.py" then (10 : Int) else 0)
   else 0)

/-- `FilePriorityClassifier.applyCustomScoringRules`: every matching
rule's adjustment is summed. -/
def applyCustomScoringRules (opts : PriorityClassifierOptions) (path : String) : Int :=
  (opts.customScoringRules.map fun r =>
    if (match r.pattern with
        | .str s => strContains path s
        | .regex toks => regexTest toks path) then r.scoreAdjustment
    else 0).foldl (· + ·) 0

/-- `content.split('\n').length`. -/
def lineCount (c : String) : Nat := c.data.count '\n' + 1

/-- The function/method pattern
`(function|def|func|fn|public|private|protected)\s+\w+` of
`analyzeContentComplexity`. -/
def functionMatchToks : List RegexTok :=
  [.alts ["function", "def", "func", "fn", "public", "private", "protected"],
   .wsPlus, .wordPlus]

/-- The class pattern `(class|interface|struct|enum)\s+\w+`. -/
def classMatchToks : List RegexTok :=
  [.alts ["class", "interface", "struct", "enum"], .wsPlus, .wordPlus]

/-- The import pattern `(import|require|from|#include|use)\s+`. -/
def importMatchToks : List RegexTok :=
  [.alts ["import", "require", "from", "#include", "use"], .wsPlus]

/-- The extensions for which `analyzeContentComplexity` counts
declarations (seven, without php/rb). -/
def complexityExtensions : List String := ["js", "ts", "py", "java", "go", "rs", "cs"]

/-- `FilePriorityClassifier.analyzeContentComplexity`: the line-count
tier, plus for recognized extensions the function/class/import density
tiers, capped at 25. -/
def analyzeContentComplexity (c : String) (extension : String) : Int :=
  min
    ((if 500 < lineCount c then (15 : Int)
      else if 200 < lineCount c then 10
      else if 100 < lineCount c then 5 else 0) +
     (if complexityExtensions.contains extension then
       (if 20 < countMatches functionMatchToks c then (10 : Int)
        else if 10 < countMatches functionMatchToks c then 5 else 0) +
       (if 5 < countMatches classMatchToks c then (10 : Int)
        else if 2 < countMatches classMatchToks c then 5 else 0) +
       (if 20 < countMatches importMatchToks c then (5 : Int) else 0)
      else 0))
    25

/-- The clamp `Math.max(0, Math.min(200, score))` of `classifyFile`. -/
def clampScore (s : Int) : Int := max 0 (min 200 s)

/-- The category bands of `FilePriorityClassifier.determineCategory`
(computed from the unclamped score): ≥100 critical, ≥60 important, ≥20
normal, else ignore. -/
def classifierCategoryOf (s : Int) : ImportanceCategory :=
  if 100 ≤ s then .critical
  else if 60 ≤ s then .important
  else if 20 ≤ s then .normal
  else .ignore

/-- The reasons of `FilePriorityClassifier.determineCategory`, in source
push order. -/
def determineCategoryReasons (ch : FileCharacteristics) : List String :=
  (if ch.isPackageDefinition then ["Package/dependency definition"] else []) ++
  (if ch.isEntryPoint then ["Application entry point"] else []) ++
  (if ch.isConfiguration then ["Configuration file"] else []) ++
  (if ch.isSchema then ["Schema/API definition"] else []) ++
  (if ch.isInfrastructure then ["Infrastructure configuration"] else []) ++
  (if ch.isPublicInterface then ["Public API interface"] else []) ++
  (if ch.hasComplexLogic then ["Contains complex business logic"] else []) ++
  (if ch.hasExternalDependencies then ["Has external dependencies"] else []) ++
  (match ch.architecturalRole with
   | .coreBusinessLogic => ["Core business logic"]
   | .apiInterface => ["API interface"]
   | .dataAccess => ["Data access layer"]
   | .security => ["Security component"]
   | _ => []) ++
  (if ch.isTest then ["Test file (lower priority)"] else []) ++
  (if ch.isGenerated then ["Generated file (lower priority)"] else []) ++
  (if ch.isDocumentation && !ch.isSchema then ["Documentation file"] else [])

/-- `FilePriorityClassifier.generateRecommendations`. -/
def generateRecommendations (ch : FileCharacteristics) : List ClassificationRecommendation :=
  (if ch.isEntryPoint || ch.isPackageDefinition then
    [{ type := .analysis, priority := .high,
       description := "Critical file for understanding application structure",
       action := "Analyze first for tech stack detection" }] else []) ++
  (if ch.isSchema then
    [{ type := .generation, priority := .high,
       description := "API schema affects infrastructure requirements",
       action := "Use for API gateway and service mesh configuration" }] else []) ++
  (if ch.isInfrastructure then
    [{ type := .analysis, priority := .medium,
       description := "Existing infrastructure configuration",
       action := "Analyze for current deployment patterns" }] else []) ++
  (if ch.hasComplexLogic then
    [{ type := .monitoring, priority := .medium,
       description := "Complex logic may need monitoring",
       action := "Consider performance monitoring and logging" }] else []) ++
  (if ch.architecturalRole = .security then
    [{ type := .security, priority := .high,
       description := "Security-related component",
       action := "Apply security best practices in generated configs" }] else [])

/-- `FilePriorityClassifier.classifyFile(path, content?, type?)`:
characteristics, base score, project/language/custom adjustments, the
content-complexity bonus when content analysis is on and content is
present, the category from the unclamped score, the score clamped to
[0, 200], and the recommendations. -/
def classifyFile (opts : PriorityClassifierOptions) (path : String) (content : Option String)
    (declared : Option FileType) : FileClassification :=
  let fileExtension := fileExtensionOf (fileNameOf path)
  let ch := analyzeFileCharacteristics path content declared
  let score :=
    calculateBaseScore fileExtension ch +
    getProjectTypeAdjustment opts ch +
    getLanguageFrameworkAdjustment opts (fileNameOf path) +
    applyCustomScoringRules opts path +
    (if opts.enableContentAnalysis then
      match content with
      | some c => analyzeContentComplexity c fileExtension
      | none => 0
     else 0)
  { importance :=
      { score := clampScore score,
        reasons := determineCategoryReasons ch,
        category := classifierCategoryOf score },
    characteristics := ch,
    recommendations := generateRecommendations ch }

/-! ## Properties of `collapseSlashes` and `normalizePath` -/

/-- Characters of the collapsed list all come from the input. -/
theorem mem_collapseSlashes {c : Char} : ∀ {l : List Char}, c ∈ collapseSlashes l → c ∈ l
  | [], h => by simpa [collapseSlashes] using h
  | [a], h => by simpa [collapseSlashes] using h
  | a :: b :: rest, h => by
    rw [collapseSlashes] at h
    split at h
    · exact List.mem_cons_of_mem a (mem_collapseSlashes h)
    · rcases List.mem_cons.mp h with h' | h'
      · exact h' ▸ List.mem_cons_self a _
      · exact List.mem_cons_of_mem a (mem_collapseSlashes h')

/-- The collapsed list keeps its head character. -/
theorem collapseSlashes_cons (xs : List Char) :
    ∀ c : Char, ∃ ys, collapseSlashes (c :: xs) = c :: ys := by
  induction xs with
  | nil => exact fun c => ⟨[], rfl⟩
  | cons b rest ih =>
    intro c
    rw [collapseSlashes]
    split
    · rename_i hcb
      obtain ⟨ys, hys⟩ := ih b
      exact ⟨ys, by rw [hys, hcb.1, hcb.2]⟩
    · exact ⟨collapseSlashes (b :: rest), rfl⟩

/-- A list has no double slash when no two adjacent characters are both
slashes. -/
abbrev NoDoubleSlash (l : List Char) : Prop :=
  l.Chain' fun a b => ¬(a = '/' ∧ b = '/')

/-- The collapsed list never has two adjacent slashes. -/
theorem noDoubleSlash_collapseSlashes : ∀ l : List Char, NoDoubleSlash (collapseSlashes l)
  | [] => List.chain'_nil
  | [c] => List.chain'_singleton c
  | a :: b :: rest => by
    rw [collapseSlashes]
    split
    · exact noDoubleSlash_collapseSlashes (b :: rest)
    · rename_i hab
      obtain ⟨ys, hys⟩ := collapseSlashes_cons rest b
      rw [hys]
      exact List.chain'_cons.mpr ⟨hab, hys ▸ noDoubleSlash_collapseSlashes (b :: rest)⟩

/-- Collapsing is the identity on lists without adjacent slashes. -/
theorem collapseSlashes_eq_self : ∀ {l : List Char}, NoDoubleSlash l → collapseSlashes l = l
  | [], _ => rfl
  | [_], _ => rfl
  | a :: b :: rest, h => by
    rw [collapseSlashes, if_neg (List.chain'_cons.mp h).1,
      collapseSlashes_eq_self (List.chain'_cons.mp h).2]

/-- In a `Chain'`-good list, any two adjacent elements are related. -/
theorem chain'_adjacent {α : Type} {P : α → α → Prop} :
    ∀ (s : List α) {a b : α} {t : List α}, List.Chain' P (s ++ a :: b :: t) → P a b
  | [], _, _, _, h => (List.chain'_cons.mp h).1
  | _ :: s, _, _, _, h => chain'_adjacent s (List.Chain'.tail h)

/-- Replacing backslashes is the identity on backslash-free lists. -/
theorem map_replaceBackslash_eq_self {l : List Char} (h : ∀ c ∈ l, ¬c = '\\') :
    l.map replaceBackslash = l := by
  induction l with
  | nil => rfl
  | cons c l ih =>
    have hc : replaceBackslash c = c := if_neg (h c (List.mem_cons_self c l))
    simp only [List.map_cons, hc, ih fun d hd => h d (List.mem_cons_of_mem c hd)]

/-- The output of `replaceBackslash` is never a backslash. -/
theorem replaceBackslash_ne (c : Char) : ¬replaceBackslash c = '\\' := by
  unfold replaceBackslash
  split
  · decide
  · assumption

/-- No character of a normalized path is a backslash. -/
theorem normalizePath_no_backslash_mem (p : String) :
    ∀ c ∈ (normalizePath p).data, ¬c = '\\' := by
  intro c hc
  have hc' : c ∈ p.data.map replaceBackslash := mem_collapseSlashes hc
  obtain ⟨d, _, hd⟩ := List.mem_map.mp hc'
  exact hd ▸ replaceBackslash_ne d

/-- C8 helper: the characters of a normalized path never contain a
backslash (as a Bool `contains`). -/
theorem normalizePath_contains_backslash (p : String) :
    (normalizePath p).data.contains '\\' = false := by
  rw [List.contains_eq_any_beq, List.any_eq_false]
  intro c hc
  simpa using fun h => normalizePath_no_backslash_mem p c hc h.symm

/-- C8 helper: no double slash in a normalized path. -/
theorem normalizePath_no_doubleslash (p : String) :
    strContains (normalizePath p) "//" = false := by
  rw [strContains, decide_eq_false_iff_not]
  rintro ⟨s, t, hst⟩
  have hgood : NoDoubleSlash (normalizePath p).data := noDoubleSlash_collapseSlashes _
  rw [← hst] at hgood
  have h2 : ("//".data : List Char) = ['/', '/'] := by decide
  rw [h2, show s ++ ['/', '/'] ++ t = s ++ '/' :: '/' :: t by simp] at hgood
  exact chain'_adjacent s hgood ⟨rfl, rfl⟩

/-- C8 helper: normalization is idempotent. -/
theorem normalizePath_idem (p : String) :
    normalizePath (normalizePath p) = normalizePath p := by
  show String.mk (collapseSlashes ((normalizePath p).data.map replaceBackslash))
      = normalizePath p
  rw [map_replaceBackslash_eq_self (normalizePath_no_backslash_mem p)]
  show String.mk (collapseSlashes (collapseSlashes (p.data.map replaceBackslash))) = _
  rw [collapseSlashes_eq_self (noDoubleSlash_collapseSlashes _)]
  rfl

/-- C8: `normalizePath` replaces every backslash with a slash and collapses
duplicate slash runs, so its output has no backslash and no `"//"`
substring, and it is idempotent. -/
theorem normalizePath_normalizes (p : String) :
    (normalizePath p).data.contains '\\' = false ∧
    strContains (normalizePath p) "//" = false ∧
    normalizePath (normalizePath p) = normalizePath p :=
  ⟨normalizePath_contains_backslash p, normalizePath_no_doubleslash p,
    normalizePath_idem p⟩

/-- C10: automatic type detection only ever yields the six values
package, config, source, test, documentation, asset — never `build` or
`schema`. -/
theorem getFileType_never_build_or_schema (path : String) (content : Option String) :
    getFileType path content ∈
      ([.package, .config, .source, .test, .documentation, .asset] : List FileType) := by
  unfold getFileType
  split_ifs <;> simp

/-- C4: the category of `calculateImportanceScore` is determined by its
score through the bands `>= 80` critical, `[50, 80)` important, `[20, 50)`
normal, `< 20` ignore. -/
theorem importanceScore_category_bands (path : String) (content : Option String) :
    ((calculateImportanceScore path content).category = .critical ↔
      80 ≤ (calculateImportanceScore path content).score) ∧
    ((calculateImportanceScore path content).category = .important ↔
      50 ≤ (calculateImportanceScore path content).score ∧
        (calculateImportanceScore path content).score < 80) ∧
    ((calculateImportanceScore path content).category = .normal ↔
      20 ≤ (calculateImportanceScore path content).score ∧
        (calculateImportanceScore path content).score < 50) ∧
    ((calculateImportanceScore path content).category = .ignore ↔
      (calculateImportanceScore path content).score < 20) := by
  simp only [calculateImportanceScore]
  generalize importanceFinalScore path = s
  unfold importanceCategoryOf
  split_ifs <;> refine ⟨?_, ?_, ?_, ?_⟩ <;> simp <;> omega

/-- C6: a test file scores strictly below the otherwise-identical source
file: `src/utils.test.ts` gets the test reduction (score 10) while
`src/utils.ts` gets the source-file score (30), for any shared content. -/
theorem testFile_scores_below_source (content : Option String) :
    (calculateImportanceScore "src/utils.test.ts" content).score <
      (calculateImportanceScore "src/utils.ts" content).score := by
  show importanceFinalScore "src/utils.test.ts" < importanceFinalScore "src/utils.ts"
  decide

/-! ## Bounds on the file-utility importance score -/

/-- Package-named files satisfy none of the entry/docker/schema tests. -/
theorem pkg_name_exclusions : packageFilePatterns.all
    (fun n => !(entryPointPatterns.contains n) && !(dockerCiMatch n) && !(schemaNameMatch n))
    = true := by decide

/-- Entry-point-named files satisfy neither the docker nor the schema
test. -/
theorem entry_name_exclusions : entryPointPatterns.all
    (fun n => !(dockerCiMatch n) && !(schemaNameMatch n)) = true := by decide

/-- A package-named file has automatic type `package`. -/
theorem getFileType_of_pkg {path : String} (content : Option String)
    (h : fileNameOf path ∈ packageFilePatterns) :
    getFileType path content = .package := by
  unfold getFileType
  simp [h]

/-- A config-matching, non-package file has automatic type `config`. -/
theorem getFileType_of_cfg {path : String} (content : Option String)
    (h1 : fileNameOf path ∉ packageFilePatterns)
    (h2 : configFileMatch (fileNameOf path) = true) :
    getFileType path content = .config := by
  unfold getFileType
  simp [h1, h2]

/-- An entry-point-named file that is neither package- nor config-matching
has automatic type `source`. -/
theorem getFileType_of_entry {path : String} (content : Option String)
    (h1 : fileNameOf path ∉ packageFilePatterns)
    (h2 : configFileMatch (fileNameOf path) = false)
    (h3 : fileNameOf path ∈ entryPointPatterns) :
    getFileType path content = .source := by
  unfold getFileType
  simp [h1, h2, h3]

/-- The pre-test-reduction score is between 0 and 180. -/
theorem importanceRawScore_bounds (path : String) :
    0 ≤ importanceRawScore path ∧ importanceRawScore path ≤ 180 := by
  unfold importanceRawScore
  by_cases hpkg : fileNameOf path ∈ packageFilePatterns
  · have hexcl := List.all_eq_true.mp pkg_name_exclusions _ hpkg
    simp at hexcl
    obtain ⟨⟨hE, hD⟩, hS⟩ := hexcl
    have hft : getFileType path none = .package := getFileType_of_pkg none hpkg
    simp [hpkg, hE, hD, hS, hft]
    split_ifs <;> omega
  · by_cases hent : fileNameOf path ∈ entryPointPatterns
    · have hexcl := List.all_eq_true.mp entry_name_exclusions _ hent
      simp at hexcl
      obtain ⟨hD, hS⟩ := hexcl
      by_cases hcfg : configFileMatch (fileNameOf path) = true
      · have hft : getFileType path none = .config := getFileType_of_cfg none hpkg hcfg
        simp [hpkg, hent, hcfg, hD, hS, hft]
      · have hcfg' : configFileMatch (fileNameOf path) = false :=
          Bool.not_eq_true _ ▸ Bool.of_not_eq_true hcfg
        have hft : getFileType path none = .source := getFileType_of_entry none hpkg hcfg' hent
        simp [hpkg, hent, hcfg', hD, hS, hft]
    · by_cases hcfg : configFileMatch (fileNameOf path) = true
      · have hft : getFileType path none = .config := getFileType_of_cfg none hpkg hcfg
        simp [hpkg, hent, hcfg, hft]
        split_ifs <;> omega
      · have hcfg' : configFileMatch (fileNameOf path) = false :=
          Bool.not_eq_true _ ▸ Bool.of_not_eq_true hcfg
        simp [hpkg, hent, hcfg']
        split_ifs <;> omega

/-- The final file-utility score is between 0 and 200. -/
theorem importanceFinalScore_bounds (path : String) :
    0 ≤ importanceFinalScore path ∧ importanceFinalScore path ≤ 200 := by
  obtain ⟨h1, h2⟩ := importanceRawScore_bounds path
  unfold importanceFinalScore
  split_ifs
  · exact ⟨le_trans (by norm_num) (le_max_right _ _), max_le (by omega) (by omega)⟩
  · exact ⟨h1, by omega⟩

/-- C3: for every path and optional content, the file-utility importance
score lies in [0, 200], bonuses stacking included. -/
theorem importanceScore_in_range (path : String) (content : Option String) :
    0 ≤ (calculateImportanceScore path content).score ∧
      (calculateImportanceScore path content).score ≤ 200 :=
  importanceFinalScore_bounds path

/-! ## Stability of the insertion sort used for `fileIndex` -/

/-- Inserting an element not selected by `p` does not change the
`p`-filtered list. -/
theorem filter_orderedInsert_neg {α : Type} (r : α → α → Prop) [DecidableRel r]
    (p : α → Bool) (a : α) (h1 : p a = false) :
    ∀ L : List α, (List.orderedInsert r a L).filter p = L.filter p
  | [] => by simp [h1]
  | b :: l => by
    rw [List.orderedInsert]
    split_ifs with hr
    · simp [List.filter_cons, h1]
    · simp only [List.filter_cons, filter_orderedInsert_neg r p a h1 l]

/-- Inserting an element selected by `p`, when everything it skips over is
not selected by `p`, prepends it to the `p`-filtered list. -/
theorem filter_orderedInsert_pos {α : Type} (r : α → α → Prop) [DecidableRel r]
    (p : α → Bool) (a : α) (h1 : p a = true) (h2 : ∀ b, ¬r a b → p b = false) :
    ∀ L : List α, (List.orderedInsert r a L).filter p = a :: L.filter p
  | [] => by simp [h1]
  | b :: l => by
    rw [List.orderedInsert]
    split_ifs with hr
    · simp [List.filter_cons, h1]
    · have hb : p b = false := h2 b hr
      simp only [List.filter_cons, hb, if_neg, Bool.false_eq_true, ↓reduceIte,
        filter_orderedInsert_pos r p a h1 h2 l]

/-- Insertion sort is stable: when elements selected by `p` are never
skipped over (they relate to everything `p` rejects), the `p`-filtered
output equals the `p`-filtered input. -/
theorem filter_insertionSort {α : Type} (r : α → α → Prop) [DecidableRel r]
    (p : α → Bool) (hp : ∀ a b, p a = true → ¬r a b → p b = false) :
    ∀ l : List α, (List.insertionSort r l).filter p = l.filter p
  | [] => rfl
  | a :: l => by
    rw [List.insertionSort]
    by_cases ha : p a = true
    · rw [filter_orderedInsert_pos r p a ha (fun b => hp a b ha), filter_insertionSort r p hp l,
        List.filter_cons, if_pos ha]
    · have ha' : p a = false := Bool.not_eq_true _ ▸ Bool.of_not_eq_true ha
      rw [filter_orderedInsert_neg r p a ha', filter_insertionSort r p hp l,
        List.filter_cons, if_neg (by simp [ha'])]

/-- On a successful run the returned index is the stably sorted working
list and the diagnostics counters are the loop's. -/
theorem indexCodebase_ok_shape {input : CodebaseInput} {opts : FileIndexerOptions}
    {res : IndexResult} (hok : indexCodebase input opts = .ok res) :
    res.index.fileIndex
        = List.insertionSort scoreOrder (indexFiles opts input.files).entries ∧
    res.statistics.filesIgnored = (indexFiles opts input.files).ignored := by
  unfold indexCodebase at hok
  split_ifs at hok with hne hw
  all_goals first
    | exact Except.noConfusion hok
    | (injection hok with hok'
       subst hok'
       exact ⟨rfl, rfl⟩)

/-- C1: every successful `indexCodebase` run returns a `fileIndex` sorted
non-increasing by importance score, and the sort is stable: for every
score value, the entries carrying it appear exactly in their working-list
(input-relative) order. -/
theorem fileIndex_sorted_and_stable (input : CodebaseInput) (opts : FileIndexerOptions) :
    match indexCodebase input opts with
    | .ok res =>
        res.index.fileIndex.Sorted scoreOrder ∧
        ∀ s : Int, res.index.fileIndex.filter (fun e => e.importance.score == s)
            = (indexFiles opts input.files).entries.filter (fun e => e.importance.score == s)
    | .error _ => True := by
  cases hok : indexCodebase input opts with
  | error e => exact trivial
  | ok res =>
    obtain ⟨h1, _⟩ := indexCodebase_ok_shape hok
    show res.index.fileIndex.Sorted scoreOrder ∧
      ∀ s : Int, res.index.fileIndex.filter (fun e => e.importance.score == s)
          = (indexFiles opts input.files).entries.filter (fun e => e.importance.score == s)
    rw [h1]
    refine ⟨List.sorted_insertionSort scoreOrder _, fun s => ?_⟩
    apply filter_insertionSort
    intro a b ha hr
    simp only [beq_iff_eq] at ha
    simp only [beq_eq_false_iff_ne, ne_eq]
    unfold scoreOrder at hr
    omega

/-- C2: `indexCodebase` fails exactly when the input file list is empty,
and then with the structured `FILE_INDEXING_FAILED` analysis error carrying
"No files provided for indexing"; any non-empty input returns an index. -/
theorem indexCodebase_fails_iff_empty (input : CodebaseInput) (opts : FileIndexerOptions) :
    match indexCodebase input opts with
    | .error e =>
        input.files.isEmpty = true ∧ e.code = "FILE_INDEXING_FAILED" ∧
        e.category = .analysis ∧ e.recoverable = false ∧
        strContains e.message "No files provided for indexing" = true
    | .ok _ => input.files.isEmpty = false := by
  unfold indexCodebase
  split_ifs with h hw
  · exact ⟨h, rfl, rfl, rfl, by decide⟩
  all_goals exact Bool.not_eq_true _ ▸ h

/-! ## `node_modules/` files are always ignored -/

/-- A one-character-ahead unfolding: collapsing past a non-slash head. -/
theorem collapseSlashes_cons_ne_slash {c : Char} (h : ¬c = '/') (xs : List Char) :
    collapseSlashes (c :: xs) = c :: collapseSlashes xs := by
  cases xs with
  | nil => rfl
  | cons b rest => rw [collapseSlashes, if_neg fun hcb => h hcb.1]

/-- An infix survives prepending. -/
theorem isInfix_of_cons {α : Type} {l₁ l₂ : List α} (a : α) (h : l₁ <:+: l₂) :
    l₁ <:+: a :: l₂ := by
  obtain ⟨s, t, hst⟩ := h
  exact ⟨a :: s, t, by rw [List.cons_append, List.cons_append, hst]⟩

/-- Collapsing slash runs cannot erase a `"node_modules/"` substring. -/
theorem nm_infix_collapseSlashes :
    ∀ l : List Char, "node_modules/".data <:+: l →
      "node_modules/".data <:+: collapseSlashes l := by
  intro l
  induction l with
  | nil =>
    rintro ⟨s, t, hst⟩
    exact absurd (List.append_eq_nil.mp (List.append_eq_nil.mp hst).1).2 (by decide)
  | cons c l' ih =>
    rintro ⟨s, t, hst⟩
    cases s with
    | nil =>
      simp only [List.nil_append] at hst
      have hpat : "node_modules/".data =
          ['n', 'o', 'd', 'e', '_', 'm', 'o', 'd', 'u', 'l', 'e', 's', '/'] := by decide
      rw [← hst, hpat]
      simp only [List.cons_append, List.nil_append]
      rw [collapseSlashes_cons_ne_slash (by decide), collapseSlashes_cons_ne_slash (by decide),
        collapseSlashes_cons_ne_slash (by decide), collapseSlashes_cons_ne_slash (by decide),
        collapseSlashes_cons_ne_slash (by decide), collapseSlashes_cons_ne_slash (by decide),
        collapseSlashes_cons_ne_slash (by decide), collapseSlashes_cons_ne_slash (by decide),
        collapseSlashes_cons_ne_slash (by decide), collapseSlashes_cons_ne_slash (by decide),
        collapseSlashes_cons_ne_slash (by decide), collapseSlashes_cons_ne_slash (by decide)]
      obtain ⟨ys, hys⟩ := collapseSlashes_cons t '/'
      rw [hys]
      exact ⟨[], ys, by simp⟩
    | cons x s' =>
      rw [List.cons_append, List.cons_append] at hst
      injection hst with hx htail
      have ih' := ih ⟨s', t, htail⟩
      cases l' with
      | nil =>
        have h1 := List.append_eq_nil.mp htail
        have h2 := List.append_eq_nil.mp h1.1
        exact absurd h2.2 (by decide)
      | cons b rest =>
        rw [collapseSlashes]
        split_ifs with hcb
        · exact ih'
        · exact isInfix_of_cons c ih'

/-- Normalization preserves containment of `"node_modules/"`. -/
theorem strContains_nm_normalizePath {p : String}
    (h : strContains p "node_modules/" = true) :
    strContains (normalizePath p) "node_modules/" = true := by
  rw [strContains, decide_eq_true_eq] at h ⊢
  have hmap : ("node_modules/".data).map replaceBackslash = "node_modules/".data := by decide
  have h2 : "node_modules/".data <:+: p.data.map replaceBackslash := by
    obtain ⟨s, t, hst⟩ := h
    refine ⟨s.map replaceBackslash, t.map replaceBackslash, ?_⟩
    rw [← hst]
    simp only [List.map_append, hmap, List.append_assoc]
  exact nm_infix_collapseSlashes _ h2

/-- A path containing `"node_modules/"` matches the built-in ignore
rules. -/
theorem shouldIgnoreFile_of_nm {p : String} (h : strContains p "node_modules/" = true) :
    shouldIgnoreFile p = true := by
  unfold shouldIgnoreFile
  rw [List.any_eq_true]
  refine ⟨"node_modules/", by simp [ignorePaths], ?_⟩
  rw [if_pos (by decide : strEndsWith "node_modules/" "/" = true)]
  exact h

/-! ## Indexer loop invariants -/

/-- Filtering distributes over appended file lists. -/
theorem filterFiles_append (l₁ l₂ : List FileEntry) :
    filterFiles (l₁ ++ l₂) = filterFiles l₁ ++ filterFiles l₂ := by
  simp [filterFiles]

/-- A valid file (non-empty path, non-negative size) survives filtering at
the head of the list, with its path normalized. -/
theorem filterFiles_cons_valid (f : FileEntry) (l : List FileEntry)
    (h2 : ¬f.path = "") (h3 : 0 ≤ f.size) :
    filterFiles (f :: l)
      = { f with path := normalizePath f.path } :: filterFiles l := by
  simp [filterFiles, List.filter_cons, h2, h3]

/-- Filtering never lengthens the file list. -/
theorem filterFiles_length_le (l : List FileEntry) :
    (filterFiles l).length ≤ l.length := by
  simp only [filterFiles, List.length_map]
  exact List.length_filter_le _ _

/-- Every filtered file carries an already-normalized path. -/
theorem filterFiles_normalized (l : List FileEntry) :
    ∀ f ∈ filterFiles l, normalizePath f.path = f.path := by
  intro f hf
  simp only [filterFiles, List.mem_map] at hf
  obtain ⟨g, _, hg⟩ := hf
  rw [← hg]
  exact normalizePath_idem g.path

/-- One loop step never decreases the ignored counter. -/
theorem indexStep_ignored_mono (opts : FileIndexerOptions) (st : IndexState) (f : FileEntry) :
    st.ignored ≤ (indexStep opts st f).ignored := by
  simp only [indexStep]
  split_ifs <;> simp

/-- The whole loop never decreases the ignored counter. -/
theorem foldl_ignored_mono (opts : FileIndexerOptions) :
    ∀ (l : List FileEntry) (st : IndexState),
      st.ignored ≤ (l.foldl (indexStep opts) st).ignored
  | [], _ => le_refl _
  | f :: l, st =>
    le_trans (indexStep_ignored_mono opts st f) (foldl_ignored_mono opts l _)

/-- One loop step grows the index by at most one entry. -/
theorem indexStep_entries_le (opts : FileIndexerOptions) (st : IndexState) (f : FileEntry) :
    (indexStep opts st f).entries.length ≤ st.entries.length + 1 := by
  simp only [indexStep]
  split_ifs <;> simp

/-- The index never exceeds the number of processed files. -/
theorem foldl_entries_le (opts : FileIndexerOptions) :
    ∀ (l : List FileEntry) (st : IndexState),
      (l.foldl (indexStep opts) st).entries.length ≤ st.entries.length + l.length
  | [], _ => by simp
  | f :: l, st => by
    calc (l.foldl (indexStep opts) (indexStep opts st f)).entries.length
        ≤ (indexStep opts st f).entries.length + l.length := foldl_entries_le opts l _
      _ ≤ st.entries.length + 1 + l.length :=
          Nat.add_le_add_right (indexStep_entries_le opts st f) _
      _ = st.entries.length + (f :: l).length := by simp; omega

/-- The break flag is only ever raised once the index has reached
`maxFiles` entries. -/
theorem indexStep_stopped_inv (opts : FileIndexerOptions) (st : IndexState) (f : FileEntry)
    (h : st.stopped = true → opts.maxFiles ≤ st.entries.length) :
    (indexStep opts st f).stopped = true →
      opts.maxFiles ≤ (indexStep opts st f).entries.length := by
  simp only [indexStep]
  split_ifs with h1 h2 h3 h4
  · exact h
  · exact h
  · exact h
  · exact fun _ => h4
  · exact fun hs => absurd hs h1

/-- The break-flag invariant, propagated through the whole loop. -/
theorem foldl_stopped_inv (opts : FileIndexerOptions) :
    ∀ (l : List FileEntry) (st : IndexState),
      (st.stopped = true → opts.maxFiles ≤ st.entries.length) →
      ((l.foldl (indexStep opts) st).stopped = true →
        opts.maxFiles ≤ (l.foldl (indexStep opts) st).entries.length)
  | [], _, h => h
  | f :: l, st, h => foldl_stopped_inv opts l _ (indexStep_stopped_inv opts st f h)

/-- One loop step only appends entries whose path is not matched by the
built-in ignore rules, provided the incoming file path is already
normalized (as every `filterFiles` survivor's is). -/
theorem indexStep_entries_notIgnored (opts : FileIndexerOptions) (st : IndexState)
    (f : FileEntry) (hn : normalizePath f.path = f.path)
    (h : ∀ e ∈ st.entries, shouldIgnoreFile e.path = false) :
    ∀ e ∈ (indexStep opts st f).entries, shouldIgnoreFile e.path = false := by
  simp only [indexStep]
  split_ifs with h1 h2 h3 h4 <;> intro e he
  · exact h e he
  · exact h e he
  · exact h e he
  · rcases List.mem_append.mp he with h' | h'
    · exact h e h'
    · simp only [List.mem_singleton] at h'
      subst h'
      simp only [indexerIgnoreMatch, Bool.or_eq_true, not_or, Bool.not_eq_true] at h2
      show shouldIgnoreFile (normalizePath f.path) = false
      rw [hn]
      exact h2.1
  · rcases List.mem_append.mp he with h' | h'
    · exact h e h'
    · simp only [List.mem_singleton] at h'
      subst h'
      simp only [indexerIgnoreMatch, Bool.or_eq_true, not_or, Bool.not_eq_true] at h2
      show shouldIgnoreFile (normalizePath f.path) = false
      rw [hn]
      exact h2.1

/-- No entry of the built index is matched by the built-in ignore rules,
over any list of normalized-path files. -/
theorem foldl_entries_notIgnored (opts : FileIndexerOptions) :
    ∀ (l : List FileEntry) (st : IndexState),
      (∀ f ∈ l, normalizePath f.path = f.path) →
      (∀ e ∈ st.entries, shouldIgnoreFile e.path = false) →
      ∀ e ∈ (l.foldl (indexStep opts) st).entries, shouldIgnoreFile e.path = false
  | [], _, _, h => h
  | f :: l, st, hn, h =>
    foldl_entries_notIgnored opts l _ (fun g hg => hn g (List.mem_cons_of_mem f hg))
      (indexStep_entries_notIgnored opts st f (hn f (List.mem_cons_self f l)) h)

/-- Processing an ignore-matched file before the break increments the
ignored counter. -/
theorem indexStep_ignores (opts : FileIndexerOptions) (st : IndexState) (f : FileEntry)
    (h1 : st.stopped = false) (h2 : indexerIgnoreMatch opts f.path = true) :
    (indexStep opts st f).ignored = st.ignored + 1 := by
  simp only [indexStep]
  rw [if_neg (by simp [h1]), if_pos h2]

/-- A path containing `"node_modules/"` is non-empty. -/
theorem nm_ne_empty {p : String} (h : strContains p "node_modules/" = true) : ¬p = "" :=
  fun he => absurd (he ▸ h) (by decide)

/-- C5 (amended): every path containing `"node_modules/"` is matched by
`shouldIgnoreFile`; consequently no indexed entry of any successful run is
ignore-matched, and an input file with such a path is counted in
`filesIgnored` provided its size is non-negative and the run processes it
before the `maxFiles` break (file count within `maxFiles`).  The original
claim's unconditional "is counted in `filesIgnored`" is refuted by
`nodeModules_counted_counterexample`: a negative-size file is silently
dropped by `filterFiles` before the loop ever counts it. -/
theorem nodeModules_always_ignored (p : String) (hp : strContains p "node_modules/" = true) :
    shouldIgnoreFile p = true ∧
    ∀ (input : CodebaseInput) (opts : FileIndexerOptions) (res : IndexResult),
      indexCodebase input opts = .ok res →
      (∀ e ∈ res.index.fileIndex, shouldIgnoreFile e.path = false) ∧
      (∀ f ∈ input.files, f.path = p → 0 ≤ f.size →
        input.files.length ≤ opts.maxFiles → 1 ≤ res.statistics.filesIgnored) := by
  refine ⟨shouldIgnoreFile_of_nm hp, ?_⟩
  intro input opts res hok
  obtain ⟨hidx, hign⟩ := indexCodebase_ok_shape hok
  constructor
  · intro e he
    rw [hidx] at he
    have he' : e ∈ (indexFiles opts input.files).entries :=
      (List.mem_insertionSort scoreOrder).mp he
    exact foldl_entries_notIgnored opts (filterFiles input.files) {}
      (filterFiles_normalized input.files) (by intro e h; simp at h) e he'
  · intro f hf hfp hfs hlen
    obtain ⟨l₁, l₂, hsplit⟩ := List.append_of_mem hf
    have hfilt : filterFiles input.files
        = filterFiles l₁ ++ ({ f with path := normalizePath f.path } :: filterFiles l₂) := by
      rw [hsplit, filterFiles_append, filterFiles_cons_valid f l₂ (hfp ▸ nm_ne_empty hp) hfs]
    have hst1 : indexFiles opts input.files
        = (filterFiles l₂).foldl (indexStep opts)
            (indexStep opts ((filterFiles l₁).foldl (indexStep opts) {})
              { f with path := normalizePath f.path }) := by
      rw [indexFiles, hfilt, List.foldl_append, List.foldl_cons]
    have hlen1 : (filterFiles l₁).length < opts.maxFiles := by
      have ha := filterFiles_length_le l₁
      have hb : l₁.length < input.files.length := by
        rw [hsplit, List.length_append, List.length_cons]; omega
      omega
    have hstop : ((filterFiles l₁).foldl (indexStep opts) ({} : IndexState)).stopped
        = false := by
      by_contra hc
      have hc' : ((filterFiles l₁).foldl (indexStep opts) ({} : IndexState)).stopped
          = true := by simpa using hc
      have hbound := foldl_stopped_inv opts (filterFiles l₁) {} (fun hs => by simp at hs) hc'
      have hlen2 := foldl_entries_le opts (filterFiles l₁) {}
      simp only [List.length_nil] at hlen2
      omega
    have hsh : indexerIgnoreMatch opts (normalizePath f.path) = true := by
      have : shouldIgnoreFile (normalizePath f.path) = true := by
        rw [hfp]
        exact shouldIgnoreFile_of_nm (strContains_nm_normalizePath hp)
      simp [indexerIgnoreMatch, this]
    have hinc := indexStep_ignores opts ((filterFiles l₁).foldl (indexStep opts) {})
      { f with path := normalizePath f.path } hstop hsh
    have hmono := foldl_ignored_mono opts (filterFiles l₂)
      (indexStep opts ((filterFiles l₁).foldl (indexStep opts) {})
        { f with path := normalizePath f.path })
    rw [hign, hst1]
    omega

/-- C5 counterexample to the original claim: the input file
`node_modules/a.js` with size `-1` is dropped by `filterFiles` before the
loop runs, so a successful run reports `filesIgnored = 0` (and an empty
index) — the file is never counted in `filesIgnored`. -/
theorem nodeModules_counted_counterexample :
    strContains "node_modules/a.js" "node_modules/" = true ∧
    ((indexCodebase
      { files := [{ path := "node_modules/a.js", content := "x", size := -1, type := none }],
        metadata := { name := "t", description := none } } {}).toOption.map
      (fun res => (res.statistics.filesIgnored, res.index.fileIndex)))
    = some (0, []) := by
  exact ⟨by decide, by decide⟩

/-! ## Classifier scenario and AST cache -/

/-- C7: classifying `package.json` with content `{"name":"x"}` under the
default configuration yields category `critical`,
`isPackageDefinition = true` and a score strictly above 100. -/
theorem packageJson_classified_critical :
    (classifyFile {} "package.json" (some "\x7b\"name\":\"x\"\x7d") none).importance.category
      = .critical ∧
    (classifyFile {} "package.json" (some "\x7b\"name\":\"x\"\x7d") none).characteristics.isPackageDefinition
      = true ∧
    100 < (classifyFile {} "package.json" (some "\x7b\"name\":\"x\"\x7d") none).importance.score := by
  refine ⟨by decide, by decide, by decide⟩

/-- C9: the AST cache is keyed by file path plus modification time — after
`setCachedAST p a t`, `getCachedAST p t` returns `a` while `getCachedAST p
t'` returns `none` for every `t'` differing from the most recently stored
`t`. -/
theorem astCache_keyed_by_path_and_mtime (st : CacheState) (p : String) (a : AST) (t : Int) :
    (getCachedAST (setCachedAST st p a t) p t).1 = some a ∧
    ∀ t' : Int, ¬t' = t → (getCachedAST (setCachedAST st p a t) p t').1 = none := by
  have hset : (setCachedAST st p a t).astCache p = some (a, t) := by
    simp [setCachedAST]
  constructor
  · unfold getCachedAST
    rw [hset]
    simp
  · intro t' ht
    unfold getCachedAST
    rw [hset]
    simp only []
    rw [if_neg fun hh => ht hh.symm]

/-- C9 witness: a concrete set-then-get round trip on the empty cache,
with matching and with differing timestamps. -/
theorem astCache_keyed_witness :
    ((getCachedAST (setCachedAST emptyCacheState "src/a.ts"
        { type := "Program", body := [], sourceType := "module" } 5) "src/a.ts" 5).1
      = some { type := "Program", body := [], sourceType := "module" } ∧ ¬(3 : Int) = 5) ∧
    (getCachedAST (setCachedAST emptyCacheState "src/a.ts"
        { type := "Program", body := [], sourceType := "module" } 5) "src/a.ts" 3).1 = none :=
  ⟨⟨(astCache_keyed_by_path_and_mtime emptyCacheState "src/a.ts"
      { type := "Program", body := [], sourceType := "module" } 5).1, by decide⟩,
    (astCache_keyed_by_path_and_mtime emptyCacheState "src/a.ts"
      { type := "Program", body := [], sourceType := "module" } 5).2 3 (by decide)⟩

/-- C5 witness: a concrete `node_modules/` path is ignore-matched. -/
theorem nodeModules_always_ignored_witness :
    strContains "node_modules/some-package/index.js" "node_modules/" = true ∧
    shouldIgnoreFile "node_modules/some-package/index.js" = true :=
  ⟨by decide,
    (nodeModules_always_ignored "node_modules/some-package/index.js" (by decide)).1⟩

end AutoInfra
